import Mathlib

/-!
Verification development for the SkinToneAnalyzer application (`src/app.py`).

The application is a thin client: it normalizes an uploaded selfie (decode,
convert to RGB, downscale to a bounded size, re-encode as JPEG) and sends one
request to a hosted multimodal inference service with a strict output JSON
schema, returning the parsed JSON response.

Shallow embedding conventions:
* raw byte strings are `List Nat`;
* the PIL image library is abstracted as a `Codec` structure whose fields
  mirror the operations the source uses (`Image.open`, `.convert("RGB")`,
  `.resize`, `.save(format="JPEG")`), together with the dimension laws those
  operations satisfy;
* real-number arithmetic of the source (`max_side / w`, `w * scale`) is
  modelled exactly over `ℚ`; Python `int()` truncation on a nonnegative value
  is `Int.floor`;
* the OpenAI client is an oracle `Request → ResponseBody`; `json.loads`
  either yields a parsed `Json` value or fails (`ResponseBody.nonJson`);
* the result of `suggest_skin_tone` is the parsed `Json` value itself, since
  the source returns `json.loads(resp.output_text)` with no further
  validation;
* network calls are counted explicitly in the result.
-/

set_option autoImplicit false

namespace SkinToneAnalyzer

/-- Raw byte strings (`bytes` in Python). -/
abbrev Bytes := List Nat

/-- Constant `SKIN_TONES` from `src/app.py` lines 11-20. -/
def SKIN_TONES : List String :=
  ["FAIR", "LIGHT", "LIGHT_MEDIUM", "MEDIUM", "MEDIUM_TAN", "TAN", "DARK", "DEEP"]

/-- Constant `MODEL` from `src/app.py` line 22. -/
def MODEL : String := "gpt-4.1-mini"

/-- A decoded raster image: its dimensions plus an abstract content token
standing for the pixel data. -/
structure Image where
  width : Nat
  height : Nat
  pixels : Nat
  deriving DecidableEq, Repr

/-- Abstraction of the PIL operations used by `_preprocess_to_jpeg_bytes`,
with the dimension laws those operations satisfy: `convert("RGB")` keeps the
dimensions, `resize` sets them to the requested pair. -/
structure Codec where
  decode : Bytes → Option Image
  convertRGB : Image → Image
  resize : Image → Nat × Nat → Image
  encodeJPEG : Image → Nat → Bytes
  convert_width : ∀ i, (convertRGB i).width = i.width
  convert_height : ∀ i, (convertRGB i).height = i.height
  resize_width : ∀ i d, (resize i d).width = d.1
  resize_height : ∀ i d, (resize i d).height = d.2

/-- Python `int()` on a nonnegative rational: truncation toward zero, which
is the floor. -/
def pyInt (q : ℚ) : Nat := (⌊q⌋).toNat

/-- Line 45 of `src/app.py`: `scale = min(max_side / w, max_side / h, 1.0)`.
The three-argument `min` of Python is the nested binary minimum. -/
def scaleFactor (maxSide w h : Nat) : ℚ :=
  min ((maxSide : ℚ) / w) (min ((maxSide : ℚ) / h) 1)

/-- The decode / convert / conditional-resize part of
`_preprocess_to_jpeg_bytes` (`src/app.py` lines 43-47), returning the image
that is then JPEG-encoded; `none` models PIL raising on undecodable bytes. -/
def preprocessImage (codec : Codec) (imageBytes : Bytes) (maxSide : Nat) : Option Image :=
  (codec.decode imageBytes).map fun img0 =>
    let img := codec.convertRGB img0
    let w := img.width
    let h := img.height
    let scale := scaleFactor maxSide w h
    if scale < 1 then
      codec.resize img (pyInt ((w : ℚ) * scale), pyInt ((h : ℚ) * scale))
    else
      img

/-- Function `_preprocess_to_jpeg_bytes` (`src/app.py` lines 39-51): decode, convert
to RGB, downscale if needed, re-encode as JPEG at quality 85. -/
def preprocess_to_jpeg_bytes (codec : Codec) (imageBytes : Bytes) (maxSide : Nat) : Option Bytes :=
  (preprocessImage codec imageBytes maxSide).map fun img => codec.encodeJPEG img 85

/-- JSON values, for the declared output schema and the parsed response. -/
inductive Json where
  | null : Json
  | bool : Bool → Json
  | num : ℚ → Json
  | str : String → Json
  | arr : List Json → Json
  | obj : List (String × Json) → Json

/-- First value bound to a key in the field list of a JSON object. -/
def jsonLookup : List (String × Json) → String → Option Json
  | [], _ => none
  | (k, v) :: rest, key => if k = key then some v else jsonLookup rest key

/-- Field access on a JSON value (`none` on non-objects). -/
def Json.getField : Json → String → Option Json
  | Json.obj fields, key => jsonLookup fields key
  | _, _ => none

/-- Error taxonomy of a classification attempt.  `configurationError` is the
`RuntimeError` raised by `_get_openai_client` for a missing credential;
`decodeError` is PIL failing to decode image bytes; `jsonParseError` is
`json.loads` raising on a non-JSON response body. -/
inductive AppError where
  | configurationError : AppError
  | decodeError : AppError
  | jsonParseError : AppError
  deriving DecidableEq, Repr

/-- Credential sources: `st.secrets.get("OPENAI_API_KEY")` and
`os.environ.get("OPENAI_API_KEY")` (`src/app.py` lines 27-30). -/
structure Env where
  secretsKey : Option String
  envKey : Option String

/-- Python truthiness of an `Optional[str]`: `None` and `""` are falsy. -/
def falsy : Option String → Bool
  | none => true
  | some s => s.isEmpty

/-- Lines 27-30 of `src/app.py`:
`api_key = st.secrets.get("OPENAI_API_KEY") or os.environ.get("OPENAI_API_KEY")`
(`src/app.py` lines 27-30): the secret-store value unless it is falsy, in
which case the environment variable. -/
def resolvedKey (e : Env) : Option String :=
  if falsy e.secretsKey then e.envKey else e.secretsKey

/-- Function `_get_openai_client` (`src/app.py` lines 25-36): resolves the credential
and raises `RuntimeError` when it is missing or empty; otherwise yields the
key the client is built with. -/
def get_openai_client (e : Env) : Except AppError String :=
  let apiKey := resolvedKey e
  if falsy apiKey then Except.error AppError.configurationError
  else Except.ok (apiKey.getD "")

/-- One item of the `content` list of the request: an `input_text` block or an
`input_image` block.  The image block is identified by the JPEG bytes it
embeds (the source wraps them in a base64 data URL, an injective encoding). -/
inductive ContentItem where
  | inputText : String → ContentItem
  | inputImage : Bytes → ContentItem
  deriving DecidableEq, Repr

/-- The fixed instruction block (`src/app.py` lines 82-93). -/
def instructionText : String :=
  "You are assisting a cosmetics subscription quiz.\n" ++
  "Task: choose the best matching skin tone label from this fixed set:\n" ++
  String.intercalate ", " SKIN_TONES ++ ".\n\n" ++
  "Rules:\n" ++
  "- Focus on the person\x27s natural skin tone (cheek/jaw/neck if visible).\n" ++
  "- Ignore background, hair, clothing, and temporary redness.\n" ++
  "- Lighting can skew color; if the lighting is very tinted (strong warm/cool cast), " ++
  "or the face/skin is not clearly visible, return skin_tone=\x27unknown\x27 and set " ++
  "needs_better_photo=true.\n" ++
  "- Return ONLY valid JSON that matches the provided schema."

/-- The `content` list assembled by `suggest_skin_tone` (`src/app.py` lines
79-104): the instruction text, then the reference image when one was
preprocessed, then the selfie image appended last. -/
def buildContent (selfieJpeg : Bytes) (refJpeg : Option Bytes) : List ContentItem :=
  [ContentItem.inputText instructionText]
    ++ (match refJpeg with
        | some r => [ContentItem.inputImage r]
        | none => [])
    ++ [ContentItem.inputImage selfieJpeg]

/-- The `schema` dict literal (`src/app.py` lines 106-117), transcribed as a
JSON value. -/
def responseSchema : Json :=
  Json.obj
    [ ("type", Json.str "object"),
      ("properties", Json.obj
        [ ("skin_tone", Json.obj
            [ ("type", Json.str "string"),
              ("enum", Json.arr ((SKIN_TONES ++ ["unknown"]).map Json.str)) ]),
          ("confidence", Json.obj
            [ ("type", Json.str "number"),
              ("minimum", Json.num 0),
              ("maximum", Json.num 1) ]),
          ("needs_better_photo", Json.obj [("type", Json.str "boolean")]),
          ("notes", Json.obj [("type", Json.str "string")]),
          ("warnings", Json.obj
            [ ("type", Json.str "array"),
              ("items", Json.obj [("type", Json.str "string")]) ]) ]),
      ("required", Json.arr
        [ Json.str "skin_tone", Json.str "confidence", Json.str "needs_better_photo",
          Json.str "notes", Json.str "warnings" ]),
      ("additionalProperties", Json.bool false) ]

/-- The request handed to `client.responses.create` (`src/app.py` lines
119-131). -/
structure Request where
  model : String
  input : List ContentItem
  maxOutputTokens : Nat
  formatType : String
  formatName : String
  schema : Json
  strict : Bool

/-- Assembles the request exactly as `suggest_skin_tone` does. -/
def buildRequest (selfieJpeg : Bytes) (refJpeg : Option Bytes) : Request :=
  { model := MODEL
    input := buildContent selfieJpeg refJpeg
    maxOutputTokens := 220
    formatType := "json_schema"
    formatName := "skin_tone_suggestion"
    schema := responseSchema
    strict := true }

/-- What `resp.output_text` parses to: either a JSON value (the successful
outcome of `json.loads`) or a body that is not valid JSON, on which
`json.loads` raises. -/
inductive ResponseBody where
  | jsonBody : Json → ResponseBody
  | nonJson : String → ResponseBody

/-- The inference service as an oracle from requests to response bodies. -/
abbrev Service := Request → ResponseBody

/-- Python truthiness of `reference_swatches_bytes` (`src/app.py` line 99):
`None` and `b""` are falsy. -/
def refTruthy : Option Bytes → Bool
  | none => false
  | some b => !b.isEmpty

/-- The reference-image step of `suggest_skin_tone` (`src/app.py` lines
97-101): the reference is preprocessed only when it is truthy (present and
nonempty), otherwise no reference is prepared. -/
def preprocessRef (codec : Codec) (refBytes : Option Bytes) :
    Except AppError (Option Bytes) :=
  if refTruthy refBytes then
    match refBytes with
    | some rb =>
      match preprocess_to_jpeg_bytes codec rb 1024 with
      | none => Except.error AppError.decodeError
      | some rj => Except.ok (some rj)
    | none => Except.ok none
  else Except.ok none

/-- Function `suggest_skin_tone` (`src/app.py` lines 59-134), without the
`st.cache_data` memoization layer (modelled separately): resolve the
credential, preprocess the selfie, preprocess the reference only when it is
truthy, assemble the request, perform the single network call, and return
`json.loads` of the response body unvalidated.  The second component counts
the network calls the invocation issued. -/
def suggest_skin_tone (codec : Codec) (service : Service) (env : Env)
    (selfieBytes : Bytes) (refBytes : Option Bytes) :
    Except AppError Json × Nat :=
  match get_openai_client env with
  | Except.error e => (Except.error e, 0)
  | Except.ok _client =>
    match preprocess_to_jpeg_bytes codec selfieBytes 1024 with
    | none => (Except.error AppError.decodeError, 0)
    | some selfieJpeg =>
      match preprocessRef codec refBytes with
      | Except.error e => (Except.error e, 0)
      | Except.ok refJpeg =>
        match service (buildRequest selfieJpeg refJpeg) with
        | ResponseBody.nonJson _ => (Except.error AppError.jsonParseError, 1)
        | ResponseBody.jsonBody j => (Except.ok j, 1)

/-- The memoization key of `@st.cache_data` on `suggest_skin_tone`: the exact
argument tuple `(selfie_bytes, reference_swatches_bytes)`. -/
abbrev CacheKey := Bytes × Option Bytes

/-- The process-wide cache: an association list from argument tuples to
previously computed results. -/
abbrev Cache := List (CacheKey × Json)

/-- First cached value for a key. -/
def cacheFind : Cache → CacheKey → Option Json
  | [], _ => none
  | (k, v) :: rest, key => if k = key then some v else cacheFind rest key

/-- The `@st.cache_data` wrapper around `suggest_skin_tone` (`src/app.py`
line 59): a cache hit returns the stored result with no work; a miss runs
the function and stores the result on success (`st.cache_data` does not
cache raised exceptions). -/
def suggest_skin_tone_cached (codec : Codec) (service : Service) (env : Env)
    (cache : Cache) (selfieBytes : Bytes) (refBytes : Option Bytes) :
    (Except AppError Json × Nat) × Cache :=
  match cacheFind cache (selfieBytes, refBytes) with
  | some j => ((Except.ok j, 0), cache)
  | none =>
    let r := suggest_skin_tone codec service env selfieBytes refBytes
    match r.1 with
    | Except.ok j => ((Except.ok j, r.2), ((selfieBytes, refBytes), j) :: cache)
    | Except.error e => ((Except.error e, r.2), cache)

/-- Membership in the closed label set extended with the sentinel. -/
def isToneLabel (s : String) : Bool := (SKIN_TONES ++ ["unknown"]).contains s

/-- The five keys the declared schema requires. -/
def requiredKeys : List String :=
  ["skin_tone", "confidence", "needs_better_photo", "notes", "warnings"]

/-- Type/constraint check of a single field against the property declarations
of the declared schema; keys outside the five properties fail, interpreting
`additionalProperties: false`. -/
def fieldOk (k : String) (v : Json) : Bool :=
  if k = "skin_tone" then
    match v with
    | Json.str s => isToneLabel s
    | _ => false
  else if k = "confidence" then
    match v with
    | Json.num q => decide (0 ≤ q) && decide (q ≤ 1)
    | _ => false
  else if k = "needs_better_photo" then
    match v with
    | Json.bool _ => true
    | _ => false
  else if k = "notes" then
    match v with
    | Json.str _ => true
    | _ => false
  else if k = "warnings" then
    match v with
    | Json.arr xs =>
      xs.all fun x =>
        match x with
        | Json.str _ => true
        | _ => false
    | _ => false
  else false

/-- Conformance of a parsed response to the schema declared in the request
(`src/app.py` lines 106-117): an object, every required key present, every
present key one of the five declared properties with the declared type and
constraints. -/
def outputSchemaOk : Json → Bool
  | Json.obj fields =>
    requiredKeys.all (fun k => (jsonLookup fields k).isSome) &&
    fields.all fun kv => fieldOk kv.1 kv.2
  | _ => false

/-- A concrete codec instance for witnesses: the first two bytes are read as
the dimensions, conversion bumps the content token, resizing keeps it. -/
def testCodec : Codec where
  decode b :=
    match b with
    | w :: h :: _ => some { width := w, height := h, pixels := 0 }
    | _ => none
  convertRGB i := { width := i.width, height := i.height, pixels := i.pixels + 1 }
  resize _i d := { width := d.1, height := d.2, pixels := 0 }
  encodeJPEG i _q := [i.width, i.height, i.pixels]
  convert_width := fun _ => rfl
  convert_height := fun _ => rfl
  resize_width := fun _ _ => rfl
  resize_height := fun _ _ => rfl

/-- A credential environment whose secret store holds a key. -/
def testEnv : Env := { secretsKey := some "sk-test", envKey := none }

/-- A schema-conforming response value, as in the mocked scenario of the spec. -/
def goodJson : Json :=
  Json.obj
    [ ("skin_tone", Json.str "TAN"),
      ("confidence", Json.num (82 / 100)),
      ("needs_better_photo", Json.bool false),
      ("notes", Json.str "clear daylight photo"),
      ("warnings", Json.arr []) ]

/-- A valid-JSON response value that violates the declared schema: wrong
label, out-of-range confidence. -/
def badJson : Json :=
  Json.obj
    [ ("skin_tone", Json.str "BLUE"),
      ("confidence", Json.num 2),
      ("needs_better_photo", Json.bool false),
      ("notes", Json.str ""),
      ("warnings", Json.arr []) ]

/-- An oracle that always answers with the given JSON body. -/
def jsonService (j : Json) : Service := fun _ => ResponseBody.jsonBody j

/-- An oracle that always answers with a body that is not valid JSON. -/
def rawService (raw : String) : Service := fun _ => ResponseBody.nonJson raw

/-- Oracle that always answers with `goodJson`. -/
def goodService : Service := jsonService goodJson

lemma pyInt_le {q : ℚ} {m : Nat} (h : q ≤ (m : ℚ)) : pyInt q ≤ m := by
  unfold pyInt
  rw [Int.toNat_le]
  calc ⌊q⌋ ≤ ⌊(m : ℚ)⌋ := Int.floor_le_floor h
    _ = (m : ℤ) := Int.floor_natCast m

lemma pyInt_spec {q : ℚ} (hq : 0 ≤ q) : (pyInt q : ℚ) ≤ q ∧ q < pyInt q + 1 := by
  have h0 : (0 : ℤ) ≤ ⌊q⌋ := Int.le_floor.mpr (by exact_mod_cast hq)
  have hcast : ((pyInt q : ℤ) : ℚ) = ((⌊q⌋ : ℤ) : ℚ) := by
    unfold pyInt
    rw [Int.toNat_of_nonneg h0]
  constructor
  · calc (pyInt q : ℚ) = ((⌊q⌋ : ℤ) : ℚ) := by exact_mod_cast hcast
      _ ≤ q := Int.floor_le q
  · have h1 : q < ((⌊q⌋ : ℤ) : ℚ) + 1 := Int.lt_floor_add_one q
    calc q < ((⌊q⌋ : ℤ) : ℚ) + 1 := h1
      _ = (pyInt q : ℚ) + 1 := by rw [← hcast]; norm_num

lemma scaleFactor_nonneg (m w h : Nat) : 0 ≤ scaleFactor m w h := by
  unfold scaleFactor
  refine le_min (by positivity) (le_min (by positivity) zero_le_one)

lemma scaleFactor_le_one (m w h : Nat) : scaleFactor m w h ≤ 1 :=
  le_trans (min_le_right _ _) (min_le_right _ _)

lemma scaleFactor_le_div_w (m w h : Nat) : scaleFactor m w h ≤ (m : ℚ) / w :=
  min_le_left _ _

lemma scaleFactor_le_div_h (m w h : Nat) : scaleFactor m w h ≤ (m : ℚ) / h :=
  le_trans (min_le_right _ _) (min_le_left _ _)

lemma scaled_w_le (m w h : Nat) (hw : 0 < w) :
    (w : ℚ) * scaleFactor m w h ≤ (m : ℚ) := by
  have hw' : (0 : ℚ) < w := by exact_mod_cast hw
  rw [mul_comm]
  exact (le_div_iff₀ hw').mp (scaleFactor_le_div_w m w h)

lemma scaled_h_le (m w h : Nat) (hh : 0 < h) :
    (h : ℚ) * scaleFactor m w h ≤ (m : ℚ) := by
  have hh' : (0 : ℚ) < h := by exact_mod_cast hh
  rw [mul_comm]
  exact (le_div_iff₀ hh').mp (scaleFactor_le_div_h m w h)

lemma scaleFactor_eq_one_of_fit (m w h : Nat) (hw : 0 < w) (hh : 0 < h)
    (hwm : w ≤ m) (hhm : h ≤ m) : ¬ scaleFactor m w h < 1 := by
  have hw' : (0 : ℚ) < w := by exact_mod_cast hw
  have hh' : (0 : ℚ) < h := by exact_mod_cast hh
  refine not_lt.mpr (le_min ?_ (le_min ?_ le_rfl))
  · exact (one_le_div hw').mpr (by exact_mod_cast hwm)
  · exact (one_le_div hh').mpr (by exact_mod_cast hhm)

lemma fit_of_scaleFactor_not_lt_one (m w h : Nat) (hw : 0 < w) (hh : 0 < h)
    (hs : ¬ scaleFactor m w h < 1) : w ≤ m ∧ h ≤ m := by
  have hw' : (0 : ℚ) < w := by exact_mod_cast hw
  have hh' : (0 : ℚ) < h := by exact_mod_cast hh
  have h1 : (1 : ℚ) ≤ scaleFactor m w h := not_lt.mp hs
  constructor
  · have := le_trans h1 (scaleFactor_le_div_w m w h)
    exact_mod_cast (one_le_div hw').mp this
  · have := le_trans h1 (scaleFactor_le_div_h m w h)
    exact_mod_cast (one_le_div hh').mp this

/-- C4: for every decodable input image with positive dimensions, the image
produced by the normalizer never has a side exceeding `maxSide`, and when the
decoded longer side is already at most `maxSide` the decoded dimensions are
kept unchanged (no resize happens). -/
theorem normalize_bounded (codec : Codec) (b : Bytes) (m : Nat) (img : Image)
    (hdec : codec.decode b = some img)
    (hw : 0 < img.width) (hh : 0 < img.height) :
    ∃ out, preprocessImage codec b m = some out ∧
      max out.width out.height ≤ m ∧
      (max img.width img.height ≤ m →
        out.width = img.width ∧ out.height = img.height) := by
  have hcw := codec.convert_width img
  have hch := codec.convert_height img
  simp only [preprocessImage, hdec, Option.map_some', hcw, hch]
  by_cases hs : scaleFactor m img.width img.height < 1
  · rw [if_pos hs]
    refine ⟨_, rfl, ?_, ?_⟩
    · rw [codec.resize_width, codec.resize_height]
      exact max_le (pyInt_le (scaled_w_le m img.width img.height hw))
        (pyInt_le (scaled_h_le m img.width img.height hh))
    · intro hmax
      exact absurd hs (scaleFactor_eq_one_of_fit m img.width img.height hw hh
        (le_trans (le_max_left _ _) hmax) (le_trans (le_max_right _ _) hmax))
  · rw [if_neg hs]
    refine ⟨_, rfl, ?_, fun _ => ⟨hcw, hch⟩⟩
    rw [hcw, hch]
    obtain ⟨h1, h2⟩ := fit_of_scaleFactor_not_lt_one m img.width img.height hw hh hs
    exact max_le h1 h2

/-- C4 witness: a 2048 × 1023 image with the default bound 1024. -/
theorem normalize_bounded_witness :
    ∃ out, preprocessImage testCodec [2048, 1023] 1024 = some out ∧
      max out.width out.height ≤ 1024 ∧
      (max (2048 : Nat) 1023 ≤ 1024 → out.width = 2048 ∧ out.height = 1023) :=
  normalize_bounded testCodec [2048, 1023] 1024
    { width := 2048, height := 1023, pixels := 0 } rfl (by decide) (by decide)

/-- C3 counterexample: for a 100 × 17 image with `maxSide = 10` the code
computes the height as `int(17 * 0.1) = 1` (truncation), while rounding
`1.7` to the nearest integer would give `2`; so the normalizer does not
round each resulting dimension to the nearest integer pixel count. -/
theorem normalize_rounding_counterexample :
    preprocessImage testCodec [100, 17] 10 =
      some { width := 10, height := 1, pixels := 0 } ∧
    round ((17 : ℚ) * scaleFactor 10 100 17) = 2 ∧ (1 : Nat) ≠ 2 := by
  have hsf : scaleFactor 10 100 17 = 1 / 10 := by
    unfold scaleFactor
    rw [min_def, min_def]
    norm_num
  refine ⟨?_, ?_, by decide⟩
  · simp only [preprocessImage, testCodec, Option.map_some']
    norm_num [hsf, pyInt]
    decide
  · rw [hsf]
    norm_num [round_eq]

/-- C3 (amended): for every decodable input image of positive width `w` and
height `h` and every `maxSide`, the normalizer computes the uniform scale
factor `min (maxSide / w) (min (maxSide / h) 1)`, never upscales, and when
the factor is below one it applies it to both dimensions truncating each
resulting dimension downward to an integer pixel count (the floor, Python
`int()`), leaving the dimensions unchanged otherwise. -/
theorem normalize_scale_truncates (codec : Codec) (b : Bytes) (m : Nat) (img : Image)
    (hdec : codec.decode b = some img)
    (hw : 0 < img.width) (hh : 0 < img.height) :
    ∃ out, preprocessImage codec b m = some out ∧
      scaleFactor m img.width img.height =
        min ((m : ℚ) / img.width) (min ((m : ℚ) / img.height) 1) ∧
      scaleFactor m img.width img.height ≤ 1 ∧
      out.width ≤ img.width ∧ out.height ≤ img.height ∧
      (scaleFactor m img.width img.height < 1 →
        ((out.width : ℚ) ≤ (img.width : ℚ) * scaleFactor m img.width img.height ∧
          (img.width : ℚ) * scaleFactor m img.width img.height < (out.width : ℚ) + 1) ∧
        ((out.height : ℚ) ≤ (img.height : ℚ) * scaleFactor m img.width img.height ∧
          (img.height : ℚ) * scaleFactor m img.width img.height < (out.height : ℚ) + 1)) ∧
      (¬ scaleFactor m img.width img.height < 1 →
        out.width = img.width ∧ out.height = img.height) := by
  have hcw := codec.convert_width img
  have hch := codec.convert_height img
  have hw0 : (0 : ℚ) ≤ (img.width : ℚ) := by positivity
  have hh0 : (0 : ℚ) ≤ (img.height : ℚ) := by positivity
  have hs1 := scaleFactor_le_one m img.width img.height
  have hs0 := scaleFactor_nonneg m img.width img.height
  simp only [preprocessImage, hdec, Option.map_some', hcw, hch]
  by_cases hs : scaleFactor m img.width img.height < 1
  · rw [if_pos hs]
    refine ⟨_, rfl, rfl, hs1, ?_, ?_, ?_, fun hns => absurd hs hns⟩
    · rw [codec.resize_width]
      exact pyInt_le (mul_le_of_le_one_right hw0 hs1)
    · rw [codec.resize_height]
      exact pyInt_le (mul_le_of_le_one_right hh0 hs1)
    · intro _
      rw [codec.resize_width, codec.resize_height]
      exact ⟨pyInt_spec (mul_nonneg hw0 hs0), pyInt_spec (mul_nonneg hh0 hs0)⟩
  · rw [if_neg hs]
    refine ⟨_, rfl, rfl, hs1, ?_, ?_, fun hlt => absurd hlt hs, fun _ => ⟨hcw, hch⟩⟩
    · rw [hcw]
    · rw [hch]

/-- C3 witness for the amended statement: the 100 × 17 image bounded to 10. -/
theorem normalize_scale_truncates_witness :
    ∃ out, preprocessImage testCodec [100, 17] 10 = some out ∧
      scaleFactor 10 100 17 = min ((10 : ℚ) / 100) (min ((10 : ℚ) / 17) 1) ∧
      scaleFactor 10 100 17 ≤ 1 ∧
      out.width ≤ 100 ∧ out.height ≤ 17 ∧
      (scaleFactor 10 100 17 < 1 →
        ((out.width : ℚ) ≤ (100 : ℚ) * scaleFactor 10 100 17 ∧
          (100 : ℚ) * scaleFactor 10 100 17 < (out.width : ℚ) + 1) ∧
        ((out.height : ℚ) ≤ (17 : ℚ) * scaleFactor 10 100 17 ∧
          (17 : ℚ) * scaleFactor 10 100 17 < (out.height : ℚ) + 1)) ∧
      (¬ scaleFactor 10 100 17 < 1 → out.width = 100 ∧ out.height = 17) := by
  have h := normalize_scale_truncates testCodec [100, 17] 10
    { width := 100, height := 17, pixels := 0 } rfl (by decide) (by decide)
  simpa using h

/-- C7: the normalizer is deterministic — identical input bytes and
identical `maxSide` yield byte-identical output, for any fixed codec. -/
theorem normalize_deterministic (codec : Codec) (b1 b2 : Bytes) (m1 m2 : Nat)
    (hb : b1 = b2) (hm : m1 = m2) :
    preprocess_to_jpeg_bytes codec b1 m1 = preprocess_to_jpeg_bytes codec b2 m2 := by
  rw [hb, hm]

/-- C7 witness: two invocations on the same concrete bytes and bound. -/
theorem normalize_deterministic_witness :
    ([100, 17] : Bytes) = [100, 17] ∧ (10 : Nat) = 10 ∧
      preprocess_to_jpeg_bytes testCodec [100, 17] 10 =
        preprocess_to_jpeg_bytes testCodec [100, 17] 10 :=
  ⟨rfl, rfl, normalize_deterministic testCodec [100, 17] [100, 17] 10 10 rfl rfl⟩

/-- C8: in every request assembled by `suggest_skin_tone`, the content is the
instruction text block first, then the reference image exactly when one is
present, then the subject selfie image as the final content item. -/
theorem request_content_order (sj r : Bytes) (ro : Option Bytes) :
    (buildRequest sj ro).input = buildContent sj ro ∧
    buildContent sj (some r) =
      [ContentItem.inputText instructionText, ContentItem.inputImage r,
        ContentItem.inputImage sj] ∧
    buildContent sj none =
      [ContentItem.inputText instructionText, ContentItem.inputImage sj] :=
  ⟨rfl, rfl, rfl⟩

/-- C9: every request built by `suggest_skin_tone` declares the strict output
JSON schema with exactly the five required fields and their constraints,
forbids additional properties, and caps the response at 220 output tokens. -/
theorem request_schema_declared (sj : Bytes) (ro : Option Bytes) :
    (buildRequest sj ro).schema = responseSchema ∧
    (buildRequest sj ro).strict = true ∧
    (buildRequest sj ro).maxOutputTokens = 220 ∧
    responseSchema.getField "required" =
      some (Json.arr (requiredKeys.map Json.str)) ∧
    requiredKeys =
      ["skin_tone", "confidence", "needs_better_photo", "notes", "warnings"] ∧
    requiredKeys.length = 5 ∧
    responseSchema.getField "additionalProperties" = some (Json.bool false) ∧
    (responseSchema.getField "properties").bind (fun p => p.getField "skin_tone") =
      some (Json.obj
        [ ("type", Json.str "string"),
          ("enum", Json.arr ((SKIN_TONES ++ ["unknown"]).map Json.str)) ]) ∧
    (responseSchema.getField "properties").bind (fun p => p.getField "confidence") =
      some (Json.obj
        [ ("type", Json.str "number"),
          ("minimum", Json.num 0), ("maximum", Json.num 1) ]) ∧
    (responseSchema.getField "properties").bind
        (fun p => p.getField "needs_better_photo") =
      some (Json.obj [("type", Json.str "boolean")]) ∧
    (responseSchema.getField "properties").bind (fun p => p.getField "notes") =
      some (Json.obj [("type", Json.str "string")]) ∧
    (responseSchema.getField "properties").bind (fun p => p.getField "warnings") =
      some (Json.obj
        [ ("type", Json.str "array"),
          ("items", Json.obj [("type", Json.str "string")]) ]) :=
  ⟨rfl, rfl, rfl, rfl, rfl, rfl, rfl, rfl, rfl, rfl, rfl, rfl⟩

/-- C10: an empty reference byte string is falsy, so the whole classification
behaves exactly as with no reference: the reference is never decoded or
normalized (the equality holds for every codec, including one on which
decoding the empty bytes would fail) and no reference item enters the
request. -/
theorem empty_reference_treated_as_absent (codec : Codec) (service : Service)
    (env : Env) (sb : Bytes) :
    suggest_skin_tone codec service env sb (some []) =
      suggest_skin_tone codec service env sb none := rfl

/-- C5: when neither the secret store nor the environment variable provides a
credential, classification fails with the configuration error and issues zero
network calls. -/
theorem missing_credential_fails_fast (codec : Codec) (service : Service)
    (env : Env) (sb : Bytes) (ro : Option Bytes)
    (hs : falsy env.secretsKey = true) (he : falsy env.envKey = true) :
    suggest_skin_tone codec service env sb ro =
      (Except.error AppError.configurationError, 0) := by
  have hr : falsy (resolvedKey env) = true := by
    unfold resolvedKey
    rw [hs]
    simpa using he
  simp [suggest_skin_tone, get_openai_client, hr]

/-- C5 witness: the environment with no secret and no variable. -/
theorem missing_credential_fails_fast_witness :
    falsy (Env.mk none none).secretsKey = true ∧
    falsy (Env.mk none none).envKey = true ∧
    suggest_skin_tone testCodec goodService (Env.mk none none) [100, 17] none =
      (Except.error AppError.configurationError, 0) :=
  ⟨rfl, rfl,
    missing_credential_fails_fast testCodec goodService (Env.mk none none)
      [100, 17] none rfl rfl⟩

lemma preprocess_eval :
    preprocess_to_jpeg_bytes testCodec [100, 17] 1024 = some [100, 17, 1] := by
  have hsf : scaleFactor 1024 100 17 = 1 := by
    unfold scaleFactor
    rw [min_def, min_def]
    norm_num
  simp only [preprocess_to_jpeg_bytes, preprocessImage, testCodec, Option.map_some']
  rw [hsf]
  norm_num

lemma testEnv_key : falsy (resolvedKey testEnv) = false := rfl

lemma suggest_eval_const (j : Json) :
    suggest_skin_tone testCodec (jsonService j) testEnv [100, 17] none =
      (Except.ok j, 1) := by
  simp [suggest_skin_tone, get_openai_client, testEnv_key,
    preprocess_eval, preprocessRef, refTruthy, jsonService]

lemma jsonLookup_mem {fs : List (String × Json)} {k : String} {v : Json}
    (h : jsonLookup fs k = some v) : (k, v) ∈ fs := by
  induction fs with
  | nil => simp [jsonLookup] at h
  | cons p rest ih =>
    obtain ⟨k', v'⟩ := p
    simp only [jsonLookup] at h
    by_cases hk : k' = k
    · rw [if_pos hk] at h
      injection h with hv
      subst hk
      subst hv
      exact List.mem_cons_self _ _
    · rw [if_neg hk] at h
      exact List.mem_cons_of_mem _ (ih h)

lemma outputSchemaOk_fields {j : Json} (h : outputSchemaOk j = true) :
    (∃ t, j.getField "skin_tone" = some (Json.str t) ∧ isToneLabel t = true) ∧
    (∃ q, j.getField "confidence" = some (Json.num q) ∧ 0 ≤ q ∧ q ≤ 1) := by
  cases j with
  | obj fields =>
    rw [outputSchemaOk, Bool.and_eq_true] at h
    obtain ⟨hreq, hall⟩ := h
    have hreq' := List.all_eq_true.mp hreq
    have hall' := List.all_eq_true.mp hall
    constructor
    · have h1 : (jsonLookup fields "skin_tone").isSome = true :=
        hreq' "skin_tone" (by simp [requiredKeys])
      obtain ⟨v, hv⟩ := Option.isSome_iff_exists.mp h1
      have hfk : fieldOk "skin_tone" v = true := by
        simpa using hall' _ (jsonLookup_mem hv)
      cases v with
      | str s =>
        refine ⟨s, ?_, ?_⟩
        · simp [Json.getField, hv]
        · simpa [fieldOk] using hfk
      | null => simp [fieldOk] at hfk
      | bool b => simp [fieldOk] at hfk
      | num q => simp [fieldOk] at hfk
      | arr xs => simp [fieldOk] at hfk
      | obj fs => simp [fieldOk] at hfk
    · have h1 : (jsonLookup fields "confidence").isSome = true :=
        hreq' "confidence" (by simp [requiredKeys])
      obtain ⟨v, hv⟩ := Option.isSome_iff_exists.mp h1
      have hfk : fieldOk "confidence" v = true := by
        simpa using hall' _ (jsonLookup_mem hv)
      cases v with
      | num q =>
        refine ⟨q, ?_, ?_⟩
        · simp [Json.getField, hv]
        · simpa [fieldOk] using hfk
      | null => simp [fieldOk] at hfk
      | bool b => simp [fieldOk] at hfk
      | str s => simp [fieldOk] at hfk
      | arr xs => simp [fieldOk] at hfk
      | obj fs => simp [fieldOk] at hfk
  | null => simp [outputSchemaOk] at h
  | bool b => simp [outputSchemaOk] at h
  | num q => simp [outputSchemaOk] at h
  | str s => simp [outputSchemaOk] at h
  | arr xs => simp [outputSchemaOk] at h

lemma suggest_ok_body {codec : Codec} {service : Service} {env : Env}
    {sb : Bytes} {ro : Option Bytes} {j : Json}
    (h : (suggest_skin_tone codec service env sb ro).1 = Except.ok j) :
    ∃ req, service req = ResponseBody.jsonBody j := by
  unfold suggest_skin_tone at h
  split at h
  · exact absurd h (by simp)
  · split at h
    · exact absurd h (by simp)
    · split at h
      · exact absurd h (by simp)
      · split at h
        · exact absurd h (by simp)
        · next heq =>
            simp only [Except.ok.injEq] at h
            subst h
            exact ⟨_, heq⟩

lemma outputSchemaOk_goodJson : outputSchemaOk goodJson = true := by
  simp only [outputSchemaOk, goodJson, requiredKeys, fieldOk, isToneLabel, SKIN_TONES,
    jsonLookup, List.all_cons, List.all_nil]
  norm_num
  decide

lemma suggest_calls_le_one (codec : Codec) (service : Service) (env : Env)
    (sb : Bytes) (ro : Option Bytes) :
    (suggest_skin_tone codec service env sb ro).2 ≤ 1 := by
  unfold suggest_skin_tone
  split
  · simp
  · split
    · simp
    · split
      · simp
      · split
        · simp
        · simp

/-- C1 counterexample: the code returns `json.loads(resp.output_text)` with
no validation, so a service body carrying an out-of-set label and an
out-of-bounds confidence is returned as the classification result as-is;
the claimed invariant on every returned value is false. -/
theorem classify_result_unvalidated :
    (suggest_skin_tone testCodec (jsonService badJson) testEnv [100, 17] none).1 =
      Except.ok badJson ∧
    badJson.getField "skin_tone" = some (Json.str "BLUE") ∧
    isToneLabel "BLUE" = false ∧
    badJson.getField "confidence" = some (Json.num 2) ∧
    ¬ ((2 : ℚ) ≤ 1) := by
  refine ⟨by rw [suggest_eval_const], rfl, rfl, rfl, by norm_num⟩

/-- C1 (amended): whenever the service honors the strict schema the request
declares — every JSON body it returns conforms to that schema — every value
returned by `suggest_skin_tone` has a `skin_tone` in the closed eight-label
set or "unknown" and a `confidence` within `[0, 1]`. -/
theorem classify_result_tone_in_set (codec : Codec) (service : Service)
    (env : Env) (sb : Bytes) (ro : Option Bytes) (j : Json)
    (hstrict : ∀ req b, service req = ResponseBody.jsonBody b →
      outputSchemaOk b = true)
    (h : (suggest_skin_tone codec service env sb ro).1 = Except.ok j) :
    (∃ t, j.getField "skin_tone" = some (Json.str t) ∧ isToneLabel t = true) ∧
    (∃ q, j.getField "confidence" = some (Json.num q) ∧ 0 ≤ q ∧ q ≤ 1) := by
  obtain ⟨req, hreq⟩ := suggest_ok_body h
  exact outputSchemaOk_fields (hstrict req j hreq)

/-- C1 witness: a run with a schema-conforming mocked service response. -/
theorem classify_result_tone_in_set_witness :
    (∃ t, goodJson.getField "skin_tone" = some (Json.str t) ∧ isToneLabel t = true) ∧
    (∃ q, goodJson.getField "confidence" = some (Json.num q) ∧ 0 ≤ q ∧ q ≤ 1) :=
  classify_result_tone_in_set testCodec (jsonService goodJson) testEnv [100, 17]
    none goodJson
    (fun _req b hb => by
      injection hb with h2
      rw [← h2]
      exact outputSchemaOk_goodJson)
    (by rw [suggest_eval_const])

/-- C2 counterexample: a valid-JSON response body that violates the declared
schema (the empty object misses every required field) is not rejected:
`suggest_skin_tone` returns it as a successful result instead of failing
with a schema-violation error. -/
theorem schema_violation_not_raised :
    suggest_skin_tone testCodec (jsonService (Json.obj [])) testEnv [100, 17] none =
      (Except.ok (Json.obj []), 1) ∧
    outputSchemaOk (Json.obj []) = false :=
  ⟨suggest_eval_const (Json.obj []), rfl⟩

/-- C2 (amended): a response body that is not valid JSON makes the call fail
with the JSON parse error (fatal to the call, never a defaulted result),
while a response body that is valid JSON — even one violating the declared
schema — is returned as parsed, without validation and without being
silently replaced by a defaulted "unknown" result. -/
theorem response_parse_handling (codec : Codec) (service : Service) (env : Env)
    (sb sj : Bytes)
    (hkey : falsy (resolvedKey env) = false)
    (hdec : preprocess_to_jpeg_bytes codec sb 1024 = some sj) :
    (∀ raw, service (buildRequest sj none) = ResponseBody.nonJson raw →
      suggest_skin_tone codec service env sb none =
        (Except.error AppError.jsonParseError, 1)) ∧
    (∀ j, service (buildRequest sj none) = ResponseBody.jsonBody j →
      suggest_skin_tone codec service env sb none = (Except.ok j, 1)) := by
  constructor
  · intro raw hsvc
    simp [suggest_skin_tone, get_openai_client, hkey, hdec, preprocessRef,
      refTruthy, hsvc]
  · intro j hsvc
    simp [suggest_skin_tone, get_openai_client, hkey, hdec, preprocessRef,
      refTruthy, hsvc]

/-- C2 witness: a non-JSON mocked body and a valid-JSON mocked body. -/
theorem response_parse_handling_witness :
    (∀ raw, rawService "oops" (buildRequest [100, 17, 1] none) =
        ResponseBody.nonJson raw →
      suggest_skin_tone testCodec (rawService "oops") testEnv [100, 17] none =
        (Except.error AppError.jsonParseError, 1)) ∧
    (∀ j, rawService "oops" (buildRequest [100, 17, 1] none) =
        ResponseBody.jsonBody j →
      suggest_skin_tone testCodec (rawService "oops") testEnv [100, 17] none =
        (Except.ok j, 1)) :=
  response_parse_handling testCodec (rawService "oops") testEnv [100, 17]
    [100, 17, 1] testEnv_key preprocess_eval

/-- C6: under the `st.cache_data` memoization, two successive calls with
byte-identical selfie and reference inputs, starting from an empty cache,
issue at most one network call in total and both return the same result. -/
theorem memoized_single_network_call (codec : Codec) (service : Service)
    (env : Env) (sb : Bytes) (ro : Option Bytes) (j : Json)
    (h : (suggest_skin_tone codec service env sb ro).1 = Except.ok j) :
    ((suggest_skin_tone_cached codec service env [] sb ro).1.1 = Except.ok j ∧
      (suggest_skin_tone_cached codec service env
          (suggest_skin_tone_cached codec service env [] sb ro).2 sb ro).1.1 =
        Except.ok j) ∧
    (suggest_skin_tone_cached codec service env [] sb ro).1.2 +
      (suggest_skin_tone_cached codec service env
          (suggest_skin_tone_cached codec service env [] sb ro).2 sb ro).1.2 ≤ 1 := by
  have hfirst : suggest_skin_tone_cached codec service env [] sb ro =
      ((Except.ok j, (suggest_skin_tone codec service env sb ro).2),
        [((sb, ro), j)]) := by
    unfold suggest_skin_tone_cached
    simp [cacheFind, h]
  have hsecond : suggest_skin_tone_cached codec service env [((sb, ro), j)] sb ro =
      ((Except.ok j, 0), [((sb, ro), j)]) := by
    unfold suggest_skin_tone_cached
    simp [cacheFind]
  rw [hfirst, hsecond]
  refine ⟨⟨rfl, rfl⟩, ?_⟩
  simpa using suggest_calls_le_one codec service env sb ro

/-- C6 witness: two cached calls on identical concrete inputs. -/
theorem memoized_single_network_call_witness :
    ((suggest_skin_tone_cached testCodec (jsonService goodJson) testEnv []
        [100, 17] none).1.1 = Except.ok goodJson ∧
      (suggest_skin_tone_cached testCodec (jsonService goodJson) testEnv
          (suggest_skin_tone_cached testCodec (jsonService goodJson) testEnv []
            [100, 17] none).2 [100, 17] none).1.1 = Except.ok goodJson) ∧
    (suggest_skin_tone_cached testCodec (jsonService goodJson) testEnv []
        [100, 17] none).1.2 +
      (suggest_skin_tone_cached testCodec (jsonService goodJson) testEnv
          (suggest_skin_tone_cached testCodec (jsonService goodJson) testEnv []
            [100, 17] none).2 [100, 17] none).1.2 ≤ 1 :=
  memoized_single_network_call testCodec (jsonService goodJson) testEnv
    [100, 17] none goodJson (by rw [suggest_eval_const])

end SkinToneAnalyzer
